import Mathlib

/-!
Verification development for the PyAstronomy funcFit GUI sources:
  src/pyaGui/ffmodelExplorer.py  (FFModelPlotFit, SetToDialog,
                                  ShowParameterSummary, FFModelExplorer)
  src/funcFit/__init__.py        (package import logic)

The Python code is shallowly embedded below.  Tk variables with a
write-trace are modelled by setter functions that run the registered
callback synchronously after updating the variable, exactly as Tcl does.
Python exceptions that can escape a handler (AttributeError, KeyError,
NameError, ZeroDivisionError, IndexError, PyARequiredImport) are modelled
with an explicit `Except` result.  Python floats are modelled by ℚ; the
builtin `float(text)` conversion is passed in as an oracle
`pyfloat : String → Option ℚ` (`none` models a ValueError).
-/

/-- Exceptions that the embedded Python code can raise. -/
inductive PyExc where
  | attributeError (attr : String)
  | keyError (key : String)
  | nameError (n : String)
  | zeroDivisionError
  | indexError
  | pyaRequiredImport (msg : String)
deriving DecidableEq, Repr

/-- Association-list lookup (model of Python dict indexing by key). -/
def alookup {α : Type} : List (String × α) → String → Option α
  | [], _ => none
  | (k, v) :: t, p => if k = p then some v else alookup t p

/-- Association-list update of an existing key (model of `d[p] = v` when
`p` is already a key of the dict; keys are never added by the GUI code). -/
def setAssoc {α : Type} : List (String × α) → String → α → List (String × α)
  | [], _, _ => []
  | (k, w) :: t, p, v => if k = p then (p, v) :: setAssoc t p v else (k, w) :: setAssoc t p v

/-- Boolean membership in a list of names (model of Python `x in list`). -/
def nameMem (p : String) : List String → Bool
  | [] => false
  | q :: t => if q = p then true else nameMem p t

theorem alookup_setAssoc_self {α : Type} (l : List (String × α)) (p : String) (v : α)
    (h : (alookup l p).isSome) : alookup (setAssoc l p v) p = some v := by
  induction l with
  | nil => simp [alookup] at h
  | cons hd t ih =>
    obtain ⟨k, w⟩ := hd
    by_cases hk : k = p
    · subst hk
      simp [alookup, setAssoc]
    · simp only [alookup, hk, if_false] at h
      simp [alookup, setAssoc, hk, ih h]

theorem alookup_setAssoc_ne {α : Type} (l : List (String × α)) (p q : String) (v : α)
    (h : q ≠ p) : alookup (setAssoc l p v) q = alookup l q := by
  induction l with
  | nil => simp [alookup, setAssoc]
  | cons hd t ih =>
    obtain ⟨k, w⟩ := hd
    by_cases hk : k = p
    · subst hk
      have hkq : ¬ (k = q) := fun hpq => h hpq.symm
      simp [alookup, setAssoc, hkq, ih]
    · by_cases hq : k = q
      · subst hq
        simp [alookup, setAssoc, hk]
      · simp [alookup, setAssoc, hk, hq, ih]

theorem nameMem_iff (p : String) (l : List String) : nameMem p l = true ↔ p ∈ l := by
  induction l with
  | nil => simp [nameMem]
  | cons q t ih =>
    by_cases hq : q = p
    · simp [nameMem, hq]
    · rw [nameMem, if_neg hq, ih]
      constructor
      · exact fun h2 => List.mem_cons_of_mem q h2
      · intro h2
        rcases List.mem_cons.1 h2 with h3 | h3
        · exact absurd h3.symm hq
        · exact h3

theorem nameMem_append (p : String) (l1 l2 : List String) :
    nameMem p (l1 ++ l2) = (nameMem p l1 || nameMem p l2) := by
  induction l1 with
  | nil => simp [nameMem]
  | cons k t ih =>
    by_cases hk : k = p
    · simp [nameMem, hk]
    · simp [nameMem, hk, ih]

/-- A value held by a Python variable that flows into a Tk `StringVar`:
either a Python float (the initial 1.02 / 0.01 defaults) or a string
(after `_modModeChanged` stored the raw entry text). -/
inductive TkVal where
  | num (q : ℚ)
  | str (s : String)
deriving DecidableEq, Repr

/-- Decimal digits of the fractional part r/d, fuel-bounded. -/
def decDigits : Nat → Nat → Nat → String
  | 0, _, _ => ""
  | _ + 1, 0, _ => ""
  | fuel + 1, r, d => toString (r * 10 / d) ++ decDigits fuel (r * 10 % d) d

/-- Decimal rendering of a rational, as Tcl renders the Python floats
that the source ever feeds to a `StringVar` (1.02 → "1.02", 0.01 → "0.01"). -/
def tkNumStr (q : ℚ) : String :=
  let sgn := if q < 0 then "-" else ""
  let n := q.num.natAbs
  let d := q.den
  if n % d = 0 then sgn ++ toString (n / d) ++ ".0"
  else sgn ++ toString (n / d) ++ "." ++ decDigits 30 (n % d) d

/-- String stored by `StringVar.set` for a given value. -/
def tkStr : TkVal → String
  | .num q => tkNumStr q
  | .str s => s

/-- Abstraction of the `"% g" % v` formatting used for the initial dialog
text and the value label (a leading space plus a decimal rendering; the
6-significant-digit rounding of `%g` plays no role in any claim). -/
def percentG (v : ℚ) : String := " " ++ tkNumStr v

/-- Per-parameter mouse-wheel settings, one `modProps` dictionary entry
(ffmodelExplorer.py line 231). -/
structure ModProps where
  modus : String
  modValMul : TkVal
  modValAdd : TkVal
deriving DecidableEq, Repr

/-- Modelled from the spec: the funcFit model object ("odf").  Its
implementation (funcFit/onedfit.py, funcFit/params.py) is not under src/;
the spec gives its contract as `evaluate(x)`, `fit(x, y, yerr)`,
`parameters()`, `freeParamNames()`, `thaw(name)`, `freeze(name)`,
`parameterSummary()` and indexed get/set of parameter values by name.
We model it as a parameter dictionary plus the list of free parameter
names. -/
structure OdfModel where
  params : List (String × ℚ)
  free : List String
deriving DecidableEq, Repr

/-- Modelled from the spec: `parameters()` returns the parameter
dictionary; the GUI only uses its keys. -/
def OdfModel.parameterNames (m : OdfModel) : List String := m.params.map Prod.fst

/-- Modelled from the spec: indexed get of a parameter value, `odf[name]`
(`none` models the KeyError-like failure on an unknown name). -/
def OdfModel.getVal (m : OdfModel) (p : String) : Option ℚ := alookup m.params p

/-- Modelled from the spec: indexed set of a parameter value,
`odf[name] = v`. -/
def OdfModel.setVal (m : OdfModel) (p : String) (v : ℚ) : OdfModel :=
  { m with params := setAssoc m.params p v }

/-- Modelled from the spec: `thaw(name)` marks the named parameter free. -/
def OdfModel.thaw (m : OdfModel) (p : String) : OdfModel :=
  { m with free := if nameMem p m.free then m.free else m.free ++ [p] }

/-- Modelled from the spec: `freeze(name)` marks the named parameter as
held constant. -/
def OdfModel.freeze (m : OdfModel) (p : String) : OdfModel :=
  { m with free := m.free.filter (fun q => ! decide (q = p)) }

/-- Modelled from the spec: `freeParamNames()`. -/
def OdfModel.freeParamNames (m : OdfModel) : List String := m.free

theorem nameMem_removeAll_self (l : List String) (p : String) :
    nameMem p (l.filter (fun r => ! decide (r = p))) = false := by
  induction l with
  | nil => simp [nameMem]
  | cons k t ih =>
    by_cases hk : k = p
    · simp [List.filter_cons, hk, ih]
    · simp [List.filter_cons, hk, nameMem, ih]

theorem nameMem_removeAll_ne (l : List String) (p q : String) (h : q ≠ p) :
    nameMem q (l.filter (fun r => ! decide (r = p))) = nameMem q l := by
  induction l with
  | nil => simp
  | cons k t ih =>
    by_cases hk : k = p
    · subst hk
      have hkq : ¬ (k = q) := fun hc => h hc.symm
      simp [List.filter_cons, nameMem, hkq, ih]
    · by_cases hq : k = q
      · subst hq
        simp [List.filter_cons, hk, nameMem]
      · simp [List.filter_cons, hk, hq, nameMem, ih]

theorem nameMem_thaw_self (m : OdfModel) (p : String) : nameMem p (m.thaw p).free = true := by
  unfold OdfModel.thaw
  by_cases h : nameMem p m.free = true
  · simp [h]
  · simp [h, nameMem_append, nameMem]

theorem nameMem_thaw_ne (m : OdfModel) (p q : String) (h : q ≠ p) :
    nameMem q (m.thaw p).free = nameMem q m.free := by
  unfold OdfModel.thaw
  by_cases hm : nameMem p m.free = true
  · simp [hm]
  · have hpq : ¬ (p = q) := fun hc => h hc.symm
    simp [hm, nameMem_append, nameMem, hpq]

theorem nameMem_freeze_self (m : OdfModel) (p : String) :
    nameMem p (m.freeze p).free = false := by
  unfold OdfModel.freeze
  exact nameMem_removeAll_self m.free p

theorem nameMem_freeze_ne (m : OdfModel) (p q : String) (h : q ≠ p) :
    nameMem q (m.freeze p).free = nameMem q m.free := by
  unfold OdfModel.freeze
  exact nameMem_removeAll_ne m.free p q h

/-- Matplotlib-side state of `FFModelPlotFit` (ffmodelExplorer.py lines
11-97).  The axis/line bookkeeping is reduced to presence flags; the only
model interaction of `plot` is the `evaluate` call, and the only one of
`fit` is the delegated `odf.fit` call. -/
structure PlotFitState where
  hasYerr : Bool
  withResiduals : Bool
  axesCreated : Bool
  modelLinePresent : Bool
  residualLinePresent : Bool
deriving DecidableEq, Repr

/-- The names of the attributes that `FFModelExplorer.__init__` (and its
methods) ever assign on `self`.  Evaluating `self.a` for any name `a`
outside this list raises an AttributeError. -/
def ffExplorerAttrs : List String :=
  ["f", "odf", "plotter", "root", "plotFrame", "canvas", "controlFrame",
   "modProps", "valueFrame", "valLabel", "setToButton", "selectedPar",
   "pselect", "mouseWheelFrame", "mwmLabel", "modModus", "factorFrame",
   "modEntryTextMul", "modEntryFactor", "radioMultipli", "addFrame",
   "modEntryTextAdd", "modEntryAdd", "radioAdd", "thawFreezeFrame",
   "parIsFree", "radioThaw", "radioFreeze", "fitButton", "parSumButton",
   "cid", "toolbar", "quitButton"]

/-- The names of the attributes that `SetToDialog.__init__` (and its
methods) ever assign on `self` (ffmodelExplorer.py lines 99-147). -/
def setToDialogAttrs : List String :=
  ["parent", "newVal", "inputFrame", "parLabel", "inputVal", "input",
   "buttonFrame", "okButton", "caButton"]

/-- State of the `FFModelExplorer` window: the model, the plotter, the
Tk variables (`selectedPar`, `modModus`, the two entry `StringVar`s,
`parIsFree`), the `modProps` dictionary, and observable effects (value
label, plot/canvas refreshes, warning dialogs, the calls made on the
model object, and the parameter-summary window bookkeeping). -/
structure GuiState where
  odf : OdfModel
  plotter : PlotFitState
  selectedPar : String
  modModus : String
  entryMul : String
  entryAdd : String
  parIsFree : Bool
  modProps : List (String × ModProps)
  valLabel : Option ℚ
  modelPlots : Nat
  redraws : Nat
  warnings : List String
  odfCalls : List String
  parSumWin : Option (List String)
  winCreated : Nat
  winDestroyed : Nat
deriving DecidableEq, Repr

/-- `self.odf[p]` — indexed read of a model parameter, recording the call;
a missing name raises KeyError. -/
def odfGetItem (st : GuiState) (p : String) : Except PyExc (ℚ × GuiState) :=
  match st.odf.getVal p with
  | some v => .ok (v, { st with odfCalls := st.odfCalls ++ ["getitem"] })
  | none => .error (.keyError p)

/-- `self.odf[p] = v` — indexed write of a model parameter, recording the
call. -/
def odfSetItem (st : GuiState) (p : String) (v : ℚ) : GuiState :=
  { st with odf := st.odf.setVal p v, odfCalls := st.odfCalls ++ ["setitem"] }

/-- `self.odf.thaw(p)`. -/
def odfThaw (st : GuiState) (p : String) : GuiState :=
  { st with odf := st.odf.thaw p, odfCalls := st.odfCalls ++ ["thaw"] }

/-- `self.odf.freeze(p)`. -/
def odfFreeze (st : GuiState) (p : String) : GuiState :=
  { st with odf := st.odf.freeze p, odfCalls := st.odfCalls ++ ["freeze"] }

/-- `self.odf.freeParamNames()`. -/
def odfFreeNames (st : GuiState) : List String × GuiState :=
  (st.odf.freeParamNames, { st with odfCalls := st.odfCalls ++ ["freeParamNames"] })

/-- `odf.parameterSummary(toScreen=False)`; the produced lines come from
the external model, passed in as the oracle `parSum`. -/
def odfParamSummary (parSum : OdfModel → List String) (st : GuiState) :
    List String × GuiState :=
  (parSum st.odf, { st with odfCalls := st.odfCalls ++ ["parameterSummary"] })

/-- `FFModelPlotFit.plot(f, odf)` (lines 50-85): sets up the axes on the
first call, evaluates the model (`odf.evaluate(self.x)`, the only model
interaction) and replots the model line (and the residual line when
`withResiduals` is set). -/
def plotterPlot (st : GuiState) : GuiState :=
  let st1 := { st with odfCalls := st.odfCalls ++ ["evaluate"] }
  let pl := st1.plotter
  let pl1 : PlotFitState :=
    { pl with
      axesCreated := true,
      modelLinePresent := (pl.hasYerr = false : Bool) || pl.modelLinePresent,
      residualLinePresent := pl.withResiduals || pl.residualLinePresent }
  { st1 with plotter := pl1, modelPlots := st1.modelPlots + 1 }

/-- `FFModelPlotFit.fit(odf)` (lines 87-96): pure delegation to
`odf.fit(self.x, self.y, yerr=self.yerr)`; the resulting parameter values
come from the external optimizer, passed in as the oracle `fitO`. -/
def plotterFit (fitO : OdfModel → OdfModel) (st : GuiState) : GuiState :=
  { st with odf := fitO st.odf, odfCalls := st.odfCalls ++ ["fit"] }

/-- Update of `self.modProps[p]` (raises KeyError when `p` is not a key). -/
def mpUpdate (st : GuiState) (p : String) (f : ModProps → ModProps) :
    Except PyExc GuiState :=
  match alookup st.modProps p with
  | none => .error (.keyError p)
  | some mp => .ok { st with modProps := setAssoc st.modProps p (f mp) }

/-- Read of `self.modProps[p]` (raises KeyError when `p` is not a key). -/
def mpGet (st : GuiState) (p : String) : Except PyExc ModProps :=
  match alookup st.modProps p with
  | none => .error (.keyError p)
  | some mp => .ok mp

/-- `FFModelExplorer._modModusChanged` (lines 336-340): store the current
modus in the selected parameter's `modProps` entry. -/
def modModusChanged (st : GuiState) : Except PyExc GuiState :=
  mpUpdate st st.selectedPar (fun mp => { mp with modus := st.modModus })

/-- `FFModelExplorer._modModeChanged` (lines 366-371): store the raw text
of both entry fields in the selected parameter's `modProps` entry. -/
def modModeChanged (st : GuiState) : Except PyExc GuiState :=
  mpUpdate st st.selectedPar
    (fun mp => { mp with modValAdd := .str st.entryAdd, modValMul := .str st.entryMul })

/-- `FFModelExplorer._thawFrozenChange` (lines 342-349). -/
def thawFrozenChange (st : GuiState) : GuiState :=
  if st.parIsFree then odfThaw st st.selectedPar else odfFreeze st st.selectedPar

/-- `self.modModus.set(v)`: the write-trace registered at line 292 runs
`_modModusChanged` synchronously. -/
def setModModus (st : GuiState) (v : String) : Except PyExc GuiState :=
  modModusChanged { st with modModus := v }

/-- `self.modEntryTextAdd.set(v)`: the write-trace registered at line 276
runs `_modModeChanged` synchronously. -/
def setEntryAdd (st : GuiState) (v : String) : Except PyExc GuiState :=
  modModeChanged { st with entryAdd := v }

/-- `self.modEntryTextMul.set(v)`: the write-trace registered at line 277
runs `_modModeChanged` synchronously. -/
def setEntryMul (st : GuiState) (v : String) : Except PyExc GuiState :=
  modModeChanged { st with entryMul := v }

/-- `self.parIsFree.set(b)` (and `radioThaw.select()` /
`radioFreeze.select()`): the write-trace registered at line 294 runs
`_thawFrozenChange` synchronously. -/
def setParIsFree (st : GuiState) (b : Bool) : GuiState :=
  thawFrozenChange { st with parIsFree := b }

/-- `FFModelExplorer._parameterValueChanged` (lines 396-404): refresh the
value label from `self.odf[self.selectedPar.get()]`, replot the model and
redraw the canvas. -/
def parameterValueChanged (st : GuiState) : Except PyExc GuiState :=
  match odfGetItem st st.selectedPar with
  | .error e => .error e
  | .ok (v, st1) =>
    let st2 := plotterPlot { st1 with valLabel := some v }
    .ok { st2 with redraws := st2.redraws + 1 }

/-- Final part of `_activeParameterChanged` (lines 389-394): set
`parIsFree` from membership in `freeParamNames()` (whose write-trace
immediately calls thaw/freeze on the selected parameter) and re-select
the matching radio button (which writes `parIsFree` once more). -/
def apcFinish (pname : String) (st : GuiState) : GuiState :=
  let pr := odfFreeNames st
  let st8 := setParIsFree pr.2 (nameMem pname pr.1)
  if st8.parIsFree then setParIsFree st8 true else setParIsFree st8 false

/-- Lines 381-388 of `_activeParameterChanged`: restore the modus and the
two entry fields from `self.modProps[pname]`.  Every `set` on a traced
variable runs its trace callback, so restoring the add entry (line 387)
already stores the still-unrestored mul entry text via
`_modModeChanged`. -/
def apcStage2 (pname : String) (st : GuiState) : Except PyExc GuiState :=
  match mpGet st pname with
  | .error e => .error e
  | .ok mp1 =>
    match setModModus st mp1.modus with
    | .error e => .error e
    | .ok st3 =>
      match (if st3.modModus = "mul" then setModModus st3 "mul" else setModModus st3 "add") with
      | .error e => .error e
      | .ok st4 =>
        match mpGet st4 pname with
        | .error e => .error e
        | .ok mp2 =>
          match setEntryAdd st4 (tkStr mp2.modValAdd) with
          | .error e => .error e
          | .ok st5 =>
            match mpGet st5 pname with
            | .error e => .error e
            | .ok mp3 =>
              match setEntryMul st5 (tkStr mp3.modValMul) with
              | .error e => .error e
              | .ok st6 => .ok (apcFinish pname st6)

/-- `FFModelExplorer._activeParameterChanged` (lines 373-394). -/
def activeParameterChanged (st : GuiState) : Except PyExc GuiState :=
  match odfGetItem st st.selectedPar with
  | .error e => .error e
  | .ok (v, st1) => apcStage2 st.selectedPar { st1 with valLabel := some v }

/-- `self.selectedPar.set(v)`: the write-trace registered at line 296 runs
`_activeParameterChanged` synchronously. -/
def setSelectedPar (st : GuiState) (v : String) : Except PyExc GuiState :=
  activeParameterChanged { st with selectedPar := v }

/-- The `except ValueError` branches of `_okClicked` (line 139) and
`_mouseWheel` (line 420): the warning text is built from
`self.modEntry.get()`, but `modEntry` is an attribute neither class ever
defines, so evaluating it raises an AttributeError and the warning dialog
is never reached. -/
def invalidFloatBranch (attrs : List String) (st : GuiState) : Except PyExc GuiState :=
  if nameMem "modEntry" attrs then
    .ok { st with warnings := st.warnings ++ ["Invalid float"] }
  else
    .error (.attributeError "modEntry")

/-- Lines 423-432 of `_mouseWheel`: the parameter update itself.
`mf? = none` models `mf` never having been bound (modus neither "add"
nor "mul"); using it would raise NameError.  Python float division by
zero raises ZeroDivisionError. -/
def wheelUpdate (st : GuiState) (pname : String) (val : ℚ) (mf? : Option ℚ)
    (eventNum : Nat) : Except PyExc GuiState :=
  if eventNum = 4 then
    match mf? with
    | none => Except.error (PyExc.nameError "mf")
    | some mf =>
      if st.modModus = "mul" then Except.ok (odfSetItem st pname (val * mf))
      else Except.ok (odfSetItem st pname (val + mf))
  else if eventNum = 5 then
    match mf? with
    | none => Except.error (PyExc.nameError "mf")
    | some mf =>
      if st.modModus = "mul" then
        if mf = 0 then Except.error PyExc.zeroDivisionError
        else Except.ok (odfSetItem st pname (val / mf))
      else Except.ok (odfSetItem st pname (val - mf))
  else Except.ok st

/-- Lines 423-433 of `_mouseWheel`: apply the modification, then
`_parameterValueChanged`. -/
def wheelApply (st : GuiState) (pname : String) (val : ℚ) (mf? : Option ℚ)
    (eventNum : Nat) : Except PyExc GuiState :=
  match wheelUpdate st pname val mf? eventNum with
  | .error e => .error e
  | .ok st1 => parameterValueChanged st1

/-- `FFModelExplorer._mouseWheel` (lines 406-433).  `pyfloat` is the
oracle for the builtin `float(text)` conversion. -/
def mouseWheel (pyfloat : String → Option ℚ) (st : GuiState) (eventNum : Nat) :
    Except PyExc GuiState :=
  match odfGetItem st st.selectedPar with
  | .error e => .error e
  | .ok (val, st1) =>
    let pname := st1.selectedPar
    if st1.modModus = "add" then
      match pyfloat st1.entryAdd with
      | some m => wheelApply st1 pname val (some m) eventNum
      | none => invalidFloatBranch ffExplorerAttrs st1
    else if st1.modModus = "mul" then
      match pyfloat st1.entryMul with
      | some m => wheelApply st1 pname val (some m) eventNum
      | none => invalidFloatBranch ffExplorerAttrs st1
    else
      wheelApply st1 pname val none eventNum

/-- State of a `SetToDialog` (lines 99-147): the entry text, the result
`newVal`, whether the window has been destroyed, and the toolkit calls
the constructor and callbacks made. -/
structure SetToState where
  newVal : Option ℚ
  inputVal : String
  destroyed : Bool
  calls : List String
deriving DecidableEq, Repr

/-- `SetToDialog.__init__` for an old parameter value `oldVal`: the entry
is preset to `"% g" % oldVal`, `newVal` starts as None, and the
constructor makes the dialog transient, binds Return to OK and
window-close to Cancel, grabs all input (`grab_set`, line 128) and blocks
in `wait_window` (line 133) until the dialog is destroyed. -/
def initSetToDialog (oldVal : ℚ) : SetToState :=
  { newVal := none,
    inputVal := percentG oldVal,
    destroyed := false,
    calls := ["transient", "bind_return_ok", "protocol_close_cancel",
              "grab_set", "input_focus_set", "wait_window"] }

/-- `SetToDialog._cancelClicked` (lines 145-147). -/
def cancelClicked (st : SetToState) : SetToState :=
  { st with destroyed := true, calls := st.calls ++ ["parent_focus_set", "destroy"] }

/-- `SetToDialog._okClicked` (lines 135-143): on a parseable float the
value is stored in `newVal` and the dialog closes via `_cancelClicked`;
on a ValueError the warning text evaluates the nonexistent attribute
`self.modEntry`, raising AttributeError. -/
def okClicked (pyfloat : String → Option ℚ) (st : SetToState) : Except PyExc SetToState :=
  match pyfloat st.inputVal with
  | some mf => .ok (cancelClicked { st with newVal := some mf })
  | none =>
    if nameMem "modEntry" setToDialogAttrs then
      .ok { st with calls := st.calls ++ ["showwarning"] }
    else
      .error (.attributeError "modEntry")

/-- A user interaction with the modal dialog. -/
inductive DialogAction where
  | clickOk
  | pressReturn
  | clickCancel
  | closeWindow
  | typeText (s : String)
deriving DecidableEq, Repr

/-- One user action on the open dialog: OK and Return run `_okClicked`,
Cancel and window close run `_cancelClicked`, typing replaces the entry
text. -/
def dialogStep (pyfloat : String → Option ℚ) (st : SetToState) :
    DialogAction → Except PyExc SetToState
  | .clickOk => okClicked pyfloat st
  | .pressReturn => okClicked pyfloat st
  | .clickCancel => .ok (cancelClicked st)
  | .closeWindow => .ok (cancelClicked st)
  | .typeText s => .ok { st with inputVal := s }

/-- The modal dialog loop: actions are processed until the window is
destroyed (`wait_window` then returns and later actions cannot reach the
dialog any more). -/
def runDialog (pyfloat : String → Option ℚ) :
    SetToState → List DialogAction → Except PyExc SetToState
  | st, [] => .ok st
  | st, a :: rest =>
    if st.destroyed then .ok st
    else
      match dialogStep pyfloat st a with
      | .error e => .error e
      | .ok st1 => runDialog pyfloat st1 rest

/-- `FFModelExplorer._setToClicked` (lines 351-358): open the modal
dialog preset with `self.odf[self.selectedPar.get()]`; when it yields a
new value, assign it to the selected parameter and refresh. -/
def setToClicked (pyfloat : String → Option ℚ) (acts : List DialogAction)
    (st : GuiState) : Except PyExc GuiState :=
  match odfGetItem st st.selectedPar with
  | .error e => .error e
  | .ok (oldVal, st1) =>
    match runDialog pyfloat (initSetToDialog oldVal) acts with
    | .error e => .error e
    | .ok d =>
      match d.newVal with
      | some v => parameterValueChanged (odfSetItem st1 st1.selectedPar v)
      | none => .ok st1

/-- `FFModelExplorer._fitClicked` (lines 360-364). -/
def fitClicked (fitO : OdfModel → OdfModel) (st : GuiState) : Except PyExc GuiState :=
  parameterValueChanged (plotterFit fitO st)

/-- `FFModelExplorer._parameterSummaryClicked` (lines 329-334): create the
summary window only when `self.root.parSumWin is None`, then update its
text from `odf.parameterSummary(toScreen=False)`. -/
def parameterSummaryClicked (parSum : OdfModel → List String) (st : GuiState) : GuiState :=
  let st1 :=
    match st.parSumWin with
    | none => { st with parSumWin := some [], winCreated := st.winCreated + 1 }
    | some _ => st
  let pr := odfParamSummary parSum st1
  { pr.2 with parSumWin := some pr.1 }

/-- `ShowParameterSummary._windowClosed` (lines 183-189): reset
`self.parent.parSumWin` to None and destroy the window. -/
def windowClosed (st : GuiState) : GuiState :=
  { st with parSumWin := none, winDestroyed := st.winDestroyed + 1 }

/-- `FFModelExplorer.__init__` (lines 197-327).  The initial writes to the
entry `StringVar`s (lines 274-275) and to `parIsFree` (line 286) happen
before the corresponding traces are registered (lines 276-277 and 294),
so no callback runs during construction; the first plot is drawn by the
direct `_parameterValueChanged()` call at line 324.  A model without
parameters raises IndexError at `ps[0]` (line 246). -/
def initGui (odf0 : OdfModel) (plotter0 : PlotFitState) : Except PyExc GuiState :=
  let ps := odf0.parameterNames
  match ps with
  | [] => .error .indexError
  | p0 :: _ =>
    let mps := ps.map (fun p =>
      (p, ({ modus := "mul", modValMul := .num (mkRat 51 50), modValAdd := .num (mkRat 1 100) } : ModProps)))
    match alookup mps p0 with
    | none => .error (.keyError p0)
    | some mp0 =>
      let st : GuiState :=
        { odf := odf0,
          plotter := plotter0,
          selectedPar := p0,
          modModus := "mul",
          entryMul := tkStr mp0.modValMul,
          entryAdd := tkStr mp0.modValAdd,
          parIsFree := nameMem p0 odf0.freeParamNames,
          modProps := mps,
          valLabel := none,
          modelPlots := 0,
          redraws := 0,
          warnings := [],
          odfCalls := ["parameters", "freeParamNames"],
          parSumWin := none,
          winCreated := 0,
          winDestroyed := 0 }
      parameterValueChanged st

/-- Result of importing the funcFit package: the submodules that were
imported and the warnings emitted. -/
structure FuncFitInit where
  loaded : List String
  warnings : List String
deriving DecidableEq, Repr

/-- Which third-party packages `ImportCheck` finds importable, and the
minor version of the Python 2 interpreter. -/
structure ImportEnv where
  pythonMinor : Nat
  numpy : Bool
  scipy : Bool
  pymc : Bool
  matplotlib : Bool
  pyfits : Bool
deriving DecidableEq, Repr

/-- `funcFit/__init__.py`: warn on Python < 2.7; raise PyARequiredImport
when numpy is missing; import the model modules; import `voigt1d` only
when scipy is available, otherwise warn. -/
def funcFitImport (env : ImportEnv) : Except PyExc FuncFitInit :=
  let w0 : List String :=
    if env.pythonMinor < 7 then
      ["funcFit needs 2.7.x or greater (but not Python 3.x). See documentation (Prerequisites) for explanation."]
    else []
  if env.numpy = false then
    .error (.pyaRequiredImport "Numpy cannot be imported.")
  else
    let mods0 : List String := if env.pymc then ["utils"] else []
    let mods1 := mods0 ++
      ["modelRebin", "onedfit", "gauss1d", "gauss2d", "params", "sinexp1d",
       "polyModel", "cauchyLorentz1d", "anneal", "syncFit", "coordinateGrid",
       "circle2d"]
    if env.scipy then
      .ok { loaded := mods1 ++ ["voigt1d"], warnings := w0 }
    else
      .ok { loaded := mods1,
            warnings := w0 ++ ["No Voigt profile available, because scipy cannot be imported"] }

/-- Whether an import attempt succeeded. -/
def importSucceeds (r : Except PyExc FuncFitInit) : Bool :=
  match r with
  | .ok _ => true
  | .error _ => false

/-- Whether a given submodule was imported. -/
def moduleLoaded (r : Except PyExc FuncFitInit) (m : String) : Bool :=
  match r with
  | .ok i => nameMem m i.loaded
  | .error _ => false

/-- Whether a given warning was emitted during the import. -/
def warningEmitted (r : Except PyExc FuncFitInit) (w : String) : Bool :=
  match r with
  | .ok i => nameMem w i.warnings
  | .error _ => false

theorem getVal_setVal_self (m : OdfModel) (p : String) (v : ℚ)
    (h : (m.getVal p).isSome) : (m.setVal p v).getVal p = some v :=
  alookup_setAssoc_self m.params p v h

theorem getVal_setVal_ne (m : OdfModel) (p q : String) (v : ℚ) (h : q ≠ p) :
    (m.setVal p v).getVal q = m.getVal q :=
  alookup_setAssoc_ne m.params p q v h

/-- Full characterization of a successful `_parameterValueChanged`. -/
theorem parameterValueChanged_ok (st : GuiState) (x : ℚ)
    (h : st.odf.getVal st.selectedPar = some x) :
    ∃ st2, parameterValueChanged st = Except.ok st2
      ∧ st2.odf = st.odf
      ∧ st2.selectedPar = st.selectedPar
      ∧ st2.modModus = st.modModus
      ∧ st2.entryMul = st.entryMul
      ∧ st2.entryAdd = st.entryAdd
      ∧ st2.parIsFree = st.parIsFree
      ∧ st2.modProps = st.modProps
      ∧ st2.valLabel = some x
      ∧ st2.modelPlots = st.modelPlots + 1
      ∧ st2.redraws = st.redraws + 1
      ∧ st2.warnings = st.warnings
      ∧ st2.odfCalls = st.odfCalls ++ ["getitem", "evaluate"]
      ∧ st2.parSumWin = st.parSumWin
      ∧ st2.winCreated = st.winCreated
      ∧ st2.winDestroyed = st.winDestroyed := by
  have hr : parameterValueChanged st = Except.ok
      { plotterPlot { st with odfCalls := st.odfCalls ++ ["getitem"], valLabel := some x } with
        redraws := (plotterPlot { st with odfCalls := st.odfCalls ++ ["getitem"], valLabel := some x }).redraws + 1 } := by
    unfold parameterValueChanged odfGetItem
    rw [h]
  refine ⟨_, hr, ?_⟩
  unfold plotterPlot
  simp

/-- A handler outcome "sets parameter p to x and refreshes": it succeeds,
the parameter reads back as x, the value label shows x, and the model
plot and the canvas have been refreshed exactly once more than in `st`. -/
def SetsTo (r : Except PyExc GuiState) (st : GuiState) (p : String) (x : ℚ) : Prop :=
  ∃ st2, r = Except.ok st2
    ∧ st2.odf.getVal p = some x
    ∧ st2.valLabel = some x
    ∧ st2.modelPlots = st.modelPlots + 1
    ∧ st2.redraws = st.redraws + 1

/-- A plotter constructed as `FFModelPlotFit(x, y)` (no errors, no
residual panel), before the first `plot` call. -/
def plainPlotter : PlotFitState :=
  { hasYerr := false, withResiduals := false, axesCreated := false,
    modelLinePresent := false, residualLinePresent := false }

/-- A model with the single parameter A = 1, free. -/
def odfA : OdfModel := { params := [("A", 1)], free := ["A"] }

/-- A model with parameters A = 1 and B = 2, both free. -/
def odfAB : OdfModel := { params := [("A", 1), ("B", 2)], free := ["A", "B"] }

/-- A consistent explorer state over model `m` with selected parameter
`sel`, modus `modus` and given entry-field texts. -/
def mkGui (m : OdfModel) (sel modus mulT addT : String) : GuiState :=
  { odf := m,
    plotter := plainPlotter,
    selectedPar := sel,
    modModus := modus,
    entryMul := mulT,
    entryAdd := addT,
    parIsFree := nameMem sel m.freeParamNames,
    modProps := m.parameterNames.map
      (fun p => (p, { modus := modus, modValMul := .str mulT, modValAdd := .str addT })),
    valLabel := none,
    modelPlots := 0,
    redraws := 0,
    warnings := [],
    odfCalls := [],
    parSumWin := none,
    winCreated := 0,
    winDestroyed := 0 }

/-- `float(text)` on text that is not a valid float literal: ValueError. -/
def noFloat : String → Option ℚ := fun _ => none

/-- An explorer state whose multiply entry holds the non-numeric text
"abc". -/
def c1Gui : GuiState := mkGui odfA "A" "mul" "abc" "0.01"

/-- Claim C1 (code bug): on non-numeric entry text the ValueError of
`float()` is indeed caught, but both `except` branches build the warning
message from `self.modEntry.get()` — an attribute neither `SetToDialog`
nor `FFModelExplorer` defines — so an AttributeError escapes and the
blocking warning dialog is never shown.  Here `_okClicked` on a dialog
whose entry holds non-numeric text, and `_mouseWheel` with non-numeric
text in the multiply entry, both end in `AttributeError("modEntry")`
instead of the claimed warning dialog. -/
theorem c1_invalid_float_raises_attribute_error :
    okClicked noFloat (initSetToDialog 1) = Except.error (PyExc.attributeError "modEntry")
    ∧ mouseWheel noFloat c1Gui 4 = Except.error (PyExc.attributeError "modEntry")
    ∧ (mouseWheel noFloat c1Gui 4).toOption.isNone = true := by
  exact ⟨rfl, rfl, rfl⟩

/-- `float(text)` when the entry text is "0": parses to 0.0. -/
def zeroFloat : String → Option ℚ := fun s => if s = "0" then some 0 else none

/-- An explorer state in multiply mode whose multiply entry holds "0". -/
def c2Gui : GuiState := mkGui odfA "A" "mul" "0" "0.01"

/-- Claim C2 counterexample: with the multiply factor entry holding "0"
(which parses to the float 0.0), a wheel-down event in multiply mode does
not set the parameter to v/mf — the division `val / mf` raises
ZeroDivisionError, so the handler neither updates the parameter nor
refreshes the plot. -/
theorem c2_wheel_down_zero_factor_divides_by_zero :
    mouseWheel zeroFloat c2Gui 5 = Except.error PyExc.zeroDivisionError := by
  rfl

/-- The C9 scenario: build the explorer over a model with parameters
A = 1 and B = 2, let the user replace the multiply-factor entry text by
"2.0" while A is selected (the write-trace stores it in A's `modProps`
entry), then select B. -/
def c9Run : Except PyExc (String × Option TkVal) :=
  match initGui odfAB plainPlotter with
  | .error e => .error e
  | .ok st0 =>
    match setEntryMul st0 "2.0" with
    | .error e => .error e
    | .ok st1 =>
      match setSelectedPar st1 "B" with
      | .error e => .error e
      | .ok st2 => .ok (st2.entryMul, (alookup st2.modProps "B").map ModProps.modValMul)

/-- Claim C9 (code bug): after switching the active parameter to B, the
restore of the control panel does not leave B with its own stored
multiply factor (the initial float 1.02, rendered "1.02"): restoring the
add entry (line 387) fires the `_modModeChanged` write-trace, which
copies the still-unrestored mul entry text "2.0" of the previous
parameter into B's `modProps` entry, and line 388 then restores the mul
entry from that clobbered value.  B's multiply setting has leaked from A
instead of being kept per-parameter. -/
theorem c9_mul_factor_clobbered_on_switch :
    c9Run = Except.ok ("2.0", some (TkVal.str "2.0"))
    ∧ TkVal.str "2.0" ≠ TkVal.num (mkRat 51 50)
    ∧ tkStr (TkVal.num (mkRat 51 50)) = "1.02" := by
  exact ⟨rfl, by decide, by decide⟩

/-- An import environment where everything except scipy is importable. -/
def envNoScipy : ImportEnv :=
  { pythonMinor := 7, numpy := true, scipy := false, pymc := true,
    matplotlib := true, pyfits := true }

/-- Claim C5 counterexample: in an environment where numpy is importable
but scipy is not, importing funcFit succeeds and yet the Voigt module is
not made available, so the unconditional claim fails. -/
theorem c5_no_scipy_no_voigt :
    importSucceeds (funcFitImport envNoScipy) = true
    ∧ moduleLoaded (funcFitImport envNoScipy) "voigt1d" = false
    ∧ moduleLoaded (funcFitImport envNoScipy) "gauss1d" = true := by
  decide

/-- Claim C5 (amended): when numpy and scipy are importable, importing
the funcFit package makes the Gaussian (1D and 2D), Voigt, Lorentzian
(Cauchy-Lorentz) and polynomial model modules available. -/
theorem c5_model_family_available (env : ImportEnv)
    (h1 : env.numpy = true) (h2 : env.scipy = true) :
    importSucceeds (funcFitImport env) = true
    ∧ moduleLoaded (funcFitImport env) "gauss1d" = true
    ∧ moduleLoaded (funcFitImport env) "gauss2d" = true
    ∧ moduleLoaded (funcFitImport env) "voigt1d" = true
    ∧ moduleLoaded (funcFitImport env) "cauchyLorentz1d" = true
    ∧ moduleLoaded (funcFitImport env) "polyModel" = true := by
  unfold funcFitImport importSucceeds moduleLoaded
  rw [h1, h2]
  by_cases hp : env.pymc = true <;>
    by_cases hv : env.pythonMinor < 7 <;>
      simp [hp, hv, nameMem]

/-- Witness for the amended C5 at a concrete environment. -/
theorem c5_model_family_available_witness :
    importSucceeds (funcFitImport { pythonMinor := 7, numpy := true, scipy := true, pymc := true, matplotlib := true, pyfits := true }) = true
    ∧ moduleLoaded (funcFitImport { pythonMinor := 7, numpy := true, scipy := true, pymc := true, matplotlib := true, pyfits := true }) "gauss1d" = true
    ∧ moduleLoaded (funcFitImport { pythonMinor := 7, numpy := true, scipy := true, pymc := true, matplotlib := true, pyfits := true }) "gauss2d" = true
    ∧ moduleLoaded (funcFitImport { pythonMinor := 7, numpy := true, scipy := true, pymc := true, matplotlib := true, pyfits := true }) "voigt1d" = true
    ∧ moduleLoaded (funcFitImport { pythonMinor := 7, numpy := true, scipy := true, pymc := true, matplotlib := true, pyfits := true }) "cauchyLorentz1d" = true
    ∧ moduleLoaded (funcFitImport { pythonMinor := 7, numpy := true, scipy := true, pymc := true, matplotlib := true, pyfits := true }) "polyModel" = true :=
  c5_model_family_available
    { pythonMinor := 7, numpy := true, scipy := true, pymc := true, matplotlib := true, pyfits := true }
    (by decide) (by decide)

/-- Claim C8: a missing numpy makes the funcFit import raise
PyARequiredImport; with numpy present but scipy missing the import
succeeds, `voigt1d` is omitted, and a warning is emitted instead of an
error. -/
theorem c8_numpy_required_scipy_optional :
    (∀ env : ImportEnv, env.numpy = false →
      funcFitImport env = Except.error (PyExc.pyaRequiredImport "Numpy cannot be imported."))
    ∧ (∀ env : ImportEnv, env.numpy = true → env.scipy = false →
      importSucceeds (funcFitImport env) = true
      ∧ moduleLoaded (funcFitImport env) "voigt1d" = false
      ∧ warningEmitted (funcFitImport env)
          "No Voigt profile available, because scipy cannot be imported" = true) := by
  constructor
  · intro env h
    unfold funcFitImport
    rw [h]
    simp
  · intro env h1 h2
    unfold funcFitImport importSucceeds moduleLoaded warningEmitted
    rw [h1, h2]
    by_cases hp : env.pymc = true <;>
      by_cases hv : env.pythonMinor < 7 <;>
        simp [hp, hv, nameMem, nameMem_append]

/-- Witness for C8 at concrete environments. -/
theorem c8_numpy_required_scipy_optional_witness :
    funcFitImport { pythonMinor := 7, numpy := false, scipy := true, pymc := true, matplotlib := true, pyfits := true }
      = Except.error (PyExc.pyaRequiredImport "Numpy cannot be imported.")
    ∧ importSucceeds (funcFitImport envNoScipy) = true
    ∧ warningEmitted (funcFitImport envNoScipy)
        "No Voigt profile available, because scipy cannot be imported" = true :=
  ⟨c8_numpy_required_scipy_optional.1
      { pythonMinor := 7, numpy := false, scipy := true, pymc := true, matplotlib := true, pyfits := true }
      (by decide),
   (c8_numpy_required_scipy_optional.2 envNoScipy (by decide) (by decide)).1,
   (c8_numpy_required_scipy_optional.2 envNoScipy (by decide) (by decide)).2.2⟩

/-- Window-count bookkeeping for the parameter-summary window: the number
of windows ever created equals the number destroyed plus one exactly when
`root.parSumWin` currently holds a window, so at most one summary window
is alive at any time. -/
def SummaryWinInv (st : GuiState) : Prop :=
  st.winCreated = st.winDestroyed + (match st.parSumWin with | some _ => 1 | none => 0)

/-- Claim C10: `_parameterSummaryClicked` creates a window only when
`root.parSumWin is None` and otherwise only updates the existing window's
text; `_windowClosed` resets `parSumWin` to None; both preserve the
at-most-one-window invariant. -/
theorem c10_at_most_one_summary_window :
    (∀ (parSum : OdfModel → List String) (st : GuiState),
      SummaryWinInv st → SummaryWinInv (parameterSummaryClicked parSum st))
    ∧ (∀ st : GuiState, st.parSumWin.isSome = true →
      SummaryWinInv st → SummaryWinInv (windowClosed st))
    ∧ (∀ (parSum : OdfModel → List String) (st : GuiState), st.parSumWin = none →
      (parameterSummaryClicked parSum st).winCreated = st.winCreated + 1
      ∧ (parameterSummaryClicked parSum st).parSumWin = some (parSum st.odf))
    ∧ (∀ (parSum : OdfModel → List String) (st : GuiState) (w : List String),
      st.parSumWin = some w →
      (parameterSummaryClicked parSum st).winCreated = st.winCreated
      ∧ (parameterSummaryClicked parSum st).parSumWin = some (parSum st.odf))
    ∧ (∀ st : GuiState, (windowClosed st).parSumWin = none) := by
  refine ⟨?_, ?_, ?_, ?_, ?_⟩
  · intro parSum st h
    unfold SummaryWinInv at h ⊢
    unfold parameterSummaryClicked odfParamSummary
    cases hw : st.parSumWin with
    | none => simp [hw] at h ⊢; omega
    | some w => simp [hw] at h ⊢; omega
  · intro st hs h
    unfold SummaryWinInv at h ⊢
    unfold windowClosed
    cases hw : st.parSumWin with
    | none => rw [hw] at hs; simp at hs
    | some w => simp [hw] at h ⊢; omega
  · intro parSum st h
    unfold parameterSummaryClicked odfParamSummary
    rw [h]
    simp
  · intro parSum st w h
    unfold parameterSummaryClicked odfParamSummary
    rw [h]
    simp
  · intro st
    unfold windowClosed
    simp

/-- Witness for C10: the summary button on a fresh explorer state creates
one window, a second click creates no further window, and closing resets
the reference. -/
theorem c10_at_most_one_summary_window_witness :
    (parameterSummaryClicked (fun _ => ["line"]) (mkGui odfA "A" "mul" "1.02" "0.01")).winCreated
      = (mkGui odfA "A" "mul" "1.02" "0.01").winCreated + 1
    ∧ SummaryWinInv (parameterSummaryClicked (fun _ => ["line"]) (mkGui odfA "A" "mul" "1.02" "0.01"))
    ∧ (windowClosed (parameterSummaryClicked (fun _ => ["line"]) (mkGui odfA "A" "mul" "1.02" "0.01"))).parSumWin = none := by
  refine ⟨?_, ?_, ?_⟩
  · exact (c10_at_most_one_summary_window.2.2.1 (fun _ => ["line"])
      (mkGui odfA "A" "mul" "1.02" "0.01") (by decide)).1
  · exact c10_at_most_one_summary_window.1 (fun _ => ["line"])
      (mkGui odfA "A" "mul" "1.02" "0.01") (by unfold SummaryWinInv; rfl)
  · exact c10_at_most_one_summary_window.2.2.2.2
      (parameterSummaryClicked (fun _ => ["line"]) (mkGui odfA "A" "mul" "1.02" "0.01"))

theorem mpUpdate_ok_fields (st : GuiState) (p : String) (f : ModProps → ModProps)
    (st2 : GuiState) (h : mpUpdate st p f = Except.ok st2) :
    st2.selectedPar = st.selectedPar ∧ st2.odf = st.odf ∧ st2.parIsFree = st.parIsFree := by
  unfold mpUpdate at h
  cases halk : alookup st.modProps p with
  | none => rw [halk] at h; exact absurd h (by simp)
  | some mp =>
    rw [halk] at h
    cases h
    simp

theorem setModModus_ok_fields (st : GuiState) (v : String) (st2 : GuiState)
    (h : setModModus st v = Except.ok st2) :
    st2.selectedPar = st.selectedPar ∧ st2.odf = st.odf ∧ st2.parIsFree = st.parIsFree := by
  unfold setModModus modModusChanged at h
  simpa using mpUpdate_ok_fields _ _ _ _ h

theorem setEntryAdd_ok_fields (st : GuiState) (v : String) (st2 : GuiState)
    (h : setEntryAdd st v = Except.ok st2) :
    st2.selectedPar = st.selectedPar ∧ st2.odf = st.odf ∧ st2.parIsFree = st.parIsFree := by
  unfold setEntryAdd modModeChanged at h
  simpa using mpUpdate_ok_fields _ _ _ _ h

theorem setEntryMul_ok_fields (st : GuiState) (v : String) (st2 : GuiState)
    (h : setEntryMul st v = Except.ok st2) :
    st2.selectedPar = st.selectedPar ∧ st2.odf = st.odf ∧ st2.parIsFree = st.parIsFree := by
  unfold setEntryMul modModeChanged at h
  simpa using mpUpdate_ok_fields _ _ _ _ h

theorem setModModus_ite_ok_fields (st : GuiState) (c : Prop) [Decidable c]
    (a b : String) (st2 : GuiState)
    (h : (if c then setModModus st a else setModModus st b) = Except.ok st2) :
    st2.selectedPar = st.selectedPar ∧ st2.odf = st.odf ∧ st2.parIsFree = st.parIsFree := by
  by_cases hc : c
  · rw [if_pos hc] at h; exact setModModus_ok_fields _ _ _ h
  · rw [if_neg hc] at h; exact setModModus_ok_fields _ _ _ h

/-- After the tail of `_activeParameterChanged` (lines 389-394) the
thawed/frozen radio state agrees with membership of the selected
parameter in the model's free parameters. -/
theorem apcFinish_reflects (p : String) (st : GuiState) (hsel : st.selectedPar = p) :
    (apcFinish p st).parIsFree = nameMem p (apcFinish p st).odf.free
    ∧ (apcFinish p st).selectedPar = p := by
  unfold apcFinish odfFreeNames setParIsFree thawFrozenChange odfThaw odfFreeze
    OdfModel.freeParamNames
  cases hb : nameMem p st.odf.free with
  | true => simp [hsel, hb, nameMem_thaw_self]
  | false => simp [hsel, hb, nameMem_freeze_self]

theorem apcStage2_ok (p : String) (stX st2 : GuiState)
    (h : apcStage2 p stX = Except.ok st2) (hsel : stX.selectedPar = p) :
    st2.parIsFree = nameMem p st2.odf.free ∧ st2.selectedPar = p := by
  unfold apcStage2 at h
  cases h1 : mpGet stX p with
  | error e => rw [h1] at h; dsimp only at h; exact absurd h (by simp)
  | ok mp1 =>
    rw [h1] at h
    dsimp only at h
    cases h2 : setModModus stX mp1.modus with
    | error e => rw [h2] at h; dsimp only at h; exact absurd h (by simp)
    | ok st3 =>
      rw [h2] at h
      dsimp only at h
      cases h3 : (if st3.modModus = "mul" then setModModus st3 "mul" else setModModus st3 "add") with
      | error e => rw [h3] at h; dsimp only at h; exact absurd h (by simp)
      | ok st4 =>
        rw [h3] at h
        dsimp only at h
        cases h4 : mpGet st4 p with
        | error e => rw [h4] at h; dsimp only at h; exact absurd h (by simp)
        | ok mp2 =>
          rw [h4] at h
          dsimp only at h
          cases h5 : setEntryAdd st4 (tkStr mp2.modValAdd) with
          | error e => rw [h5] at h; dsimp only at h; exact absurd h (by simp)
          | ok st5 =>
            rw [h5] at h
            dsimp only at h
            cases h6 : mpGet st5 p with
            | error e => rw [h6] at h; dsimp only at h; exact absurd h (by simp)
            | ok mp3 =>
              rw [h6] at h
              dsimp only at h
              cases h7 : setEntryMul st5 (tkStr mp3.modValMul) with
              | error e => rw [h7] at h; dsimp only at h; exact absurd h (by simp)
              | ok st6 =>
                rw [h7] at h
                dsimp only at h
                cases h
                have hs3 := (setModModus_ok_fields _ _ _ h2).1
                have hs4 := (setModModus_ite_ok_fields _ _ _ _ _ h3).1
                have hs5 := (setEntryAdd_ok_fields _ _ _ h5).1
                have hs6 := (setEntryMul_ok_fields _ _ _ h7).1
                have hsel6 : st6.selectedPar = p := by
                  rw [hs6, hs5, hs4, hs3, hsel]
                exact apcFinish_reflects p st6 hsel6

/-- Claim C4: selecting "Thawed" invokes `thaw` exactly on the currently
selected parameter and selecting "Frozen" invokes `freeze` on it — only
the selected parameter's free/frozen state changes and parameter values
are untouched — and after `_activeParameterChanged` the radio state
(`parIsFree`) agrees with membership of the selected parameter in
`freeParamNames()`. -/
theorem c4_thaw_freeze_selected_only :
    (∀ st : GuiState,
      (setParIsFree st true).odfCalls = st.odfCalls ++ ["thaw"]
      ∧ (setParIsFree st true).odf.params = st.odf.params
      ∧ nameMem st.selectedPar (setParIsFree st true).odf.free = true
      ∧ (∀ q, q ≠ st.selectedPar →
          nameMem q (setParIsFree st true).odf.free = nameMem q st.odf.free)
      ∧ (setParIsFree st true).parIsFree = true)
    ∧ (∀ st : GuiState,
      (setParIsFree st false).odfCalls = st.odfCalls ++ ["freeze"]
      ∧ (setParIsFree st false).odf.params = st.odf.params
      ∧ nameMem st.selectedPar (setParIsFree st false).odf.free = false
      ∧ (∀ q, q ≠ st.selectedPar →
          nameMem q (setParIsFree st false).odf.free = nameMem q st.odf.free)
      ∧ (setParIsFree st false).parIsFree = false)
    ∧ (∀ st st2 : GuiState, activeParameterChanged st = Except.ok st2 →
        st2.parIsFree = nameMem st2.selectedPar st2.odf.free) := by
  refine ⟨?_, ?_, ?_⟩
  · intro st
    unfold setParIsFree thawFrozenChange odfThaw OdfModel.thaw
    refine ⟨by simp, by simp, ?_, ?_, by simp⟩
    · simpa using nameMem_thaw_self st.odf st.selectedPar
    · intro q hq
      simpa using nameMem_thaw_ne st.odf st.selectedPar q hq
  · intro st
    unfold setParIsFree thawFrozenChange odfFreeze OdfModel.freeze
    refine ⟨by simp, by simp, ?_, ?_, by simp⟩
    · simpa using nameMem_freeze_self st.odf st.selectedPar
    · intro q hq
      simpa using nameMem_freeze_ne st.odf st.selectedPar q hq
  · intro st st2 h
    unfold activeParameterChanged at h
    cases hg : odfGetItem st st.selectedPar with
    | error e => rw [hg] at h; dsimp only at h; exact absurd h (by simp)
    | ok pr =>
      obtain ⟨v, st1⟩ := pr
      rw [hg] at h
      dsimp only at h
      have hsel1 : st1.selectedPar = st.selectedPar := by
        unfold odfGetItem at hg
        cases hv2 : st.odf.getVal st.selectedPar with
        | none => rw [hv2] at hg; exact absurd hg (by simp)
        | some w =>
          rw [hv2] at hg
          dsimp only at hg
          cases hg
          rfl
      have hres := apcStage2_ok st.selectedPar { st1 with valLabel := some v } st2 h
        (by simpa using hsel1)
      rw [hres.1, hres.2]

/-- The state reached by `_activeParameterChanged` on
`mkGui odfAB "B" "mul" "1.5" "0.2"`. -/
def c4SwitchRes : GuiState :=
  { odf := { params := [("A", 1), ("B", 2)], free := ["A", "B"] },
    plotter := plainPlotter,
    selectedPar := "B",
    modModus := "mul",
    entryMul := "1.5",
    entryAdd := "0.2",
    parIsFree := true,
    modProps :=
      [("A", { modus := "mul", modValMul := TkVal.str "1.5", modValAdd := TkVal.str "0.2" }),
       ("B", { modus := "mul", modValMul := TkVal.str "1.5", modValAdd := TkVal.str "0.2" })],
    valLabel := some 2,
    modelPlots := 0,
    redraws := 0,
    warnings := [],
    odfCalls := ["getitem", "freeParamNames", "thaw", "thaw"],
    parSumWin := none,
    winCreated := 0,
    winDestroyed := 0 }

/-- Witness for C4 at a concrete state: clicking "Thawed" and "Frozen"
with parameter A selected, and one concrete `_activeParameterChanged`
run. -/
theorem c4_thaw_freeze_selected_only_witness :
    nameMem "A" (setParIsFree (mkGui odfAB "A" "mul" "1.02" "0.01") true).odf.free = true
    ∧ nameMem "B" (setParIsFree (mkGui odfAB "A" "mul" "1.02" "0.01") false).odf.free
        = nameMem "B" (mkGui odfAB "A" "mul" "1.02" "0.01").odf.free
    ∧ (setParIsFree (mkGui odfAB "A" "mul" "1.02" "0.01") false).parIsFree = false
    ∧ activeParameterChanged (mkGui odfAB "B" "mul" "1.5" "0.2") = Except.ok c4SwitchRes
    ∧ c4SwitchRes.parIsFree = nameMem c4SwitchRes.selectedPar c4SwitchRes.odf.free := by
  refine ⟨?_, ?_, ?_, rfl, ?_⟩
  · exact (c4_thaw_freeze_selected_only.1 (mkGui odfAB "A" "mul" "1.02" "0.01")).2.2.1
  · exact ((c4_thaw_freeze_selected_only.2.1 (mkGui odfAB "A" "mul" "1.02" "0.01")).2.2.2.1
      "B" (by decide))
  · exact (c4_thaw_freeze_selected_only.2.1 (mkGui odfAB "A" "mul" "1.02" "0.01")).2.2.2.2
  · exact c4_thaw_freeze_selected_only.2.2 (mkGui odfAB "B" "mul" "1.5" "0.2") c4SwitchRes rfl

/-- Writing a value to the selected parameter and then running
`_parameterValueChanged` sets the parameter, the label and refreshes the
plot. -/
theorem wheel_set_ok (st : GuiState) (x : ℚ)
    (hv : (st.odf.getVal st.selectedPar).isSome) :
    SetsTo (parameterValueChanged (odfSetItem st st.selectedPar x)) st st.selectedPar x := by
  have hset : (odfSetItem st st.selectedPar x).odf.getVal
      ((odfSetItem st st.selectedPar x).selectedPar) = some x := by
    show (st.odf.setVal st.selectedPar x).getVal st.selectedPar = some x
    exact getVal_setVal_self _ _ _ hv
  obtain ⟨st2, he, hodf, hsel, hmm, hml, had, hpf, hmp, hlab, hplots, hred, hw, hc, hps, hwc, hwd⟩ :=
    parameterValueChanged_ok _ x hset
  refine ⟨st2, he, ?_, hlab, hplots, hred⟩
  rw [hodf]
  exact hset

/-- Claim C2 (amended): for a wheel event on selected parameter p with
value v and a modification entry parsing to mf, wheel-up multiplies
(v*mf) or adds (v+mf) and wheel-down divides (v/mf) or subtracts (v-mf)
according to the modus, and the value label and the model plot are then
refreshed — except that in multiply mode a wheel-down with mf = 0 raises
ZeroDivisionError instead of updating anything. -/
theorem c2_mouse_wheel_nudges (pyfloat : String → Option ℚ) (st : GuiState) (v mf : ℚ)
    (hv : st.odf.getVal st.selectedPar = some v) :
    (st.modModus = "mul" → pyfloat st.entryMul = some mf →
      SetsTo (mouseWheel pyfloat st 4) st st.selectedPar (v * mf)
      ∧ (mf ≠ 0 → SetsTo (mouseWheel pyfloat st 5) st st.selectedPar (v / mf))
      ∧ (mf = 0 → mouseWheel pyfloat st 5 = Except.error PyExc.zeroDivisionError))
    ∧ (st.modModus = "add" → pyfloat st.entryAdd = some mf →
      SetsTo (mouseWheel pyfloat st 4) st st.selectedPar (v + mf)
      ∧ SetsTo (mouseWheel pyfloat st 5) st st.selectedPar (v - mf)) := by
  constructor
  · intro hm hf
    refine ⟨?_, ?_, ?_⟩
    · have hmw : mouseWheel pyfloat st 4 = parameterValueChanged
          (odfSetItem { st with odfCalls := st.odfCalls ++ ["getitem"] } st.selectedPar (v * mf)) := by
        simp [mouseWheel, odfGetItem, wheelApply, wheelUpdate, hv, hm, hf]
      rw [hmw]
      exact wheel_set_ok { st with odfCalls := st.odfCalls ++ ["getitem"] } (v * mf) (by simp [hv])
    · intro hmf
      have hmw : mouseWheel pyfloat st 5 = parameterValueChanged
          (odfSetItem { st with odfCalls := st.odfCalls ++ ["getitem"] } st.selectedPar (v / mf)) := by
        simp [mouseWheel, odfGetItem, wheelApply, wheelUpdate, hv, hm, hf, hmf]
      rw [hmw]
      exact wheel_set_ok { st with odfCalls := st.odfCalls ++ ["getitem"] } (v / mf) (by simp [hv])
    · intro hmf
      simp [mouseWheel, odfGetItem, wheelApply, wheelUpdate, hv, hm, hf, hmf]
  · intro hm hf
    constructor
    · have hmw : mouseWheel pyfloat st 4 = parameterValueChanged
          (odfSetItem { st with odfCalls := st.odfCalls ++ ["getitem"] } st.selectedPar (v + mf)) := by
        simp [mouseWheel, odfGetItem, wheelApply, wheelUpdate, hv, hm, hf]
      rw [hmw]
      exact wheel_set_ok { st with odfCalls := st.odfCalls ++ ["getitem"] } (v + mf) (by simp [hv])
    · have hmw : mouseWheel pyfloat st 5 = parameterValueChanged
          (odfSetItem { st with odfCalls := st.odfCalls ++ ["getitem"] } st.selectedPar (v - mf)) := by
        simp [mouseWheel, odfGetItem, wheelApply, wheelUpdate, hv, hm, hf]
      rw [hmw]
      exact wheel_set_ok { st with odfCalls := st.odfCalls ++ ["getitem"] } (v - mf) (by simp [hv])

/-- `float(text)` where the only text ever converted is "3.0". -/
def threeFloat : String → Option ℚ := fun s => if s = "3.0" then some 3 else none

/-- Witness for the amended C2: a wheel-up in add mode over parameter
A = 1 with step entry "3.0" sets A to 1 + 3 and refreshes. -/
theorem c2_mouse_wheel_nudges_witness :
    SetsTo (mouseWheel threeFloat (mkGui odfA "A" "add" "1.02" "3.0") 4)
      (mkGui odfA "A" "add" "1.02" "3.0") (mkGui odfA "A" "add" "1.02" "3.0").selectedPar
      (1 + 3) :=
  ((c2_mouse_wheel_nudges threeFloat (mkGui odfA "A" "add" "1.02" "3.0") 1 3
      (by rfl)).2 (by rfl) (by rfl)).1

theorem runDialog_cancel_only (pyfloat : String → Option ℚ) (acts : List DialogAction) :
    ∀ d0 : SetToState, d0.newVal = none →
    (∀ a ∈ acts, a = DialogAction.clickCancel ∨ a = DialogAction.closeWindow
      ∨ ∃ s, a = DialogAction.typeText s) →
    ∃ d, runDialog pyfloat d0 acts = Except.ok d ∧ d.newVal = none := by
  induction acts with
  | nil => intro d0 h _; exact ⟨d0, rfl, h⟩
  | cons a rest ih =>
    intro d0 h hall
    unfold runDialog
    by_cases hd : d0.destroyed = true
    · simp only [hd, if_true]
      exact ⟨d0, rfl, h⟩
    · rw [if_neg hd]
      rcases hall a (List.mem_cons_self a rest) with h1 | h1 | ⟨s, h1⟩
      · subst h1
        simp only [dialogStep]
        exact ih (cancelClicked d0) (by simpa [cancelClicked] using h)
          (fun b hb => hall b (List.mem_cons_of_mem _ hb))
      · subst h1
        simp only [dialogStep]
        exact ih (cancelClicked d0) (by simpa [cancelClicked] using h)
          (fun b hb => hall b (List.mem_cons_of_mem _ hb))
      · subst h1
        simp only [dialogStep]
        exact ih { d0 with inputVal := s } (by simpa using h)
          (fun b hb => hall b (List.mem_cons_of_mem _ hb))

/-- Claim C3: the "Set to value" dialog is modal (its constructor calls
`grab_set` and blocks in `wait_window`); confirming with a text that
parses to a float v stores v in `newVal` and closes the dialog, after
which `_setToClicked` assigns v to the selected parameter and redraws;
when the dialog ends with `newVal` still None (cancel or window close,
which never touch `newVal`), the selected parameter is unchanged. -/
theorem c3_set_to_value_dialog :
    (∀ v : ℚ, "grab_set" ∈ (initSetToDialog v).calls
      ∧ "wait_window" ∈ (initSetToDialog v).calls)
    ∧ (∀ (pyfloat : String → Option ℚ) (d : SetToState) (v : ℚ),
        pyfloat d.inputVal = some v →
        okClicked pyfloat d = Except.ok (cancelClicked { d with newVal := some v })
        ∧ (cancelClicked { d with newVal := some v }).newVal = some v
        ∧ (cancelClicked { d with newVal := some v }).destroyed = true)
    ∧ (∀ (pyfloat : String → Option ℚ) (acts : List DialogAction) (st : GuiState)
        (oldVal : ℚ) (stL : GuiState),
        odfGetItem st st.selectedPar = Except.ok (oldVal, stL) →
        ∀ d : SetToState, runDialog pyfloat (initSetToDialog oldVal) acts = Except.ok d →
          (∀ v, d.newVal = some v → SetsTo (setToClicked pyfloat acts st) st st.selectedPar v)
          ∧ (d.newVal = none →
              setToClicked pyfloat acts st = Except.ok stL ∧ stL.odf = st.odf))
    ∧ (∀ (pyfloat : String → Option ℚ) (v : ℚ) (acts : List DialogAction),
        (∀ a ∈ acts, a = DialogAction.clickCancel ∨ a = DialogAction.closeWindow
          ∨ ∃ s, a = DialogAction.typeText s) →
        ∃ d, runDialog pyfloat (initSetToDialog v) acts = Except.ok d
          ∧ d.newVal = none) := by
  refine ⟨?_, ?_, ?_, ?_⟩
  · intro v
    constructor <;> simp [initSetToDialog]
  · intro pyfloat d v h
    refine ⟨?_, by simp [cancelClicked], by simp [cancelClicked]⟩
    unfold okClicked
    rw [h]
  · intro pyfloat acts st oldVal stL hg d hr
    unfold odfGetItem at hg
    cases hv2 : st.odf.getVal st.selectedPar with
    | none => rw [hv2] at hg; exact absurd hg (by simp)
    | some w =>
      rw [hv2] at hg
      dsimp only at hg
      cases hg
      constructor
      · intro v hnv
        have hset : setToClicked pyfloat acts st = parameterValueChanged
            (odfSetItem { st with odfCalls := st.odfCalls ++ ["getitem"] } st.selectedPar v) := by
          unfold setToClicked odfGetItem
          rw [hv2]
          dsimp only
          rw [hr]
          dsimp only
          rw [hnv]
        rw [hset]
        exact wheel_set_ok _ v (by simp [hv2])
      · intro hnv
        have hset : setToClicked pyfloat acts st
            = Except.ok { st with odfCalls := st.odfCalls ++ ["getitem"] } := by
          unfold setToClicked odfGetItem
          rw [hv2]
          dsimp only
          rw [hr]
          dsimp only
          rw [hnv]
        exact ⟨hset, rfl⟩
  · intro pyfloat v acts hall
    exact runDialog_cancel_only pyfloat acts (initSetToDialog v) (by simp [initSetToDialog]) hall

/-- `float(text)` where the only text ever converted is "5.0". -/
def fiveFloat : String → Option ℚ := fun s => if s = "5.0" then some 5 else none

/-- Witness for C3: the dialog constructor grabs input, and a concrete
session (type "5.0", click OK) over parameter A = 1 sets A to 5 and
refreshes, while a cancel-only session leaves `newVal` None. -/
theorem c3_set_to_value_dialog_witness :
    "grab_set" ∈ (initSetToDialog 1).calls
    ∧ SetsTo (setToClicked fiveFloat [DialogAction.typeText "5.0", DialogAction.clickOk]
        (mkGui odfA "A" "mul" "1.02" "0.01"))
      (mkGui odfA "A" "mul" "1.02" "0.01")
      (mkGui odfA "A" "mul" "1.02" "0.01").selectedPar 5
    ∧ setToClicked fiveFloat [DialogAction.clickCancel] (mkGui odfA "A" "mul" "1.02" "0.01")
        = Except.ok { mkGui odfA "A" "mul" "1.02" "0.01" with
            odfCalls := (mkGui odfA "A" "mul" "1.02" "0.01").odfCalls ++ ["getitem"] } := by
  refine ⟨?_, ?_, ?_⟩
  · exact (c3_set_to_value_dialog.1 1).1
  · exact ((c3_set_to_value_dialog.2.2.1 fiveFloat
      [DialogAction.typeText "5.0", DialogAction.clickOk]
      (mkGui odfA "A" "mul" "1.02" "0.01") 1 _ rfl _ rfl).1 5 rfl)
  · exact ((c3_set_to_value_dialog.2.2.1 fiveFloat [DialogAction.clickCancel]
      (mkGui odfA "A" "mul" "1.02" "0.01") 1 _ rfl _ rfl).2 rfl).1

/-- The model object's contract named by the spec: the only operations
the GUI file ever performs on `odf` (indexed access appears as "getitem"
and "setitem"). -/
def modelContract : List String :=
  ["evaluate", "fit", "parameters", "freeParamNames", "thaw", "freeze",
   "parameterSummary", "getitem", "setitem"]

/-- Every model-object call recorded so far is one of the contract
operations. -/
def ContractOnly (st : GuiState) : Prop := ∀ c ∈ st.odfCalls, c ∈ modelContract

/-- `st2` extends the call trace of `st` only by contract operations. -/
def CallsExt (st st2 : GuiState) : Prop :=
  ∃ l, st2.odfCalls = st.odfCalls ++ l ∧ ∀ c ∈ l, c ∈ modelContract

theorem CallsExt.rfl (st : GuiState) : CallsExt st st :=
  ⟨[], by simp, by simp⟩

theorem CallsExt.trans {a b c : GuiState} (h1 : CallsExt a b) (h2 : CallsExt b c) :
    CallsExt a c := by
  obtain ⟨l1, e1, m1⟩ := h1
  obtain ⟨l2, e2, m2⟩ := h2
  refine ⟨l1 ++ l2, by rw [e2, e1, List.append_assoc], ?_⟩
  intro x hx
  rcases List.mem_append.1 hx with h | h
  · exact m1 x h
  · exact m2 x h

theorem contractOnly_of_callsExt {a b : GuiState} (h : CallsExt a b)
    (ha : ContractOnly a) : ContractOnly b := by
  obtain ⟨l, e, m⟩ := h
  intro c hc
  rw [e] at hc
  rcases List.mem_append.1 hc with h2 | h2
  · exact ha c h2
  · exact m c h2

theorem callsExt_odfGetItem {st : GuiState} {p : String} {v : ℚ} {st2 : GuiState}
    (h : odfGetItem st p = Except.ok (v, st2)) : CallsExt st st2 := by
  unfold odfGetItem at h
  cases hv : st.odf.getVal p with
  | none => rw [hv] at h; exact absurd h (by simp)
  | some w =>
    rw [hv] at h
    dsimp only at h
    cases h
    exact ⟨["getitem"], by simp, by decide⟩

theorem callsExt_odfSetItem (st : GuiState) (p : String) (v : ℚ) :
    CallsExt st (odfSetItem st p v) :=
  ⟨["setitem"], by simp [odfSetItem], by decide⟩

theorem callsExt_setParIsFree (st : GuiState) (b : Bool) :
    CallsExt st (setParIsFree st b) := by
  cases b with
  | false => exact ⟨["freeze"], by simp [setParIsFree, thawFrozenChange, odfFreeze], by decide⟩
  | true => exact ⟨["thaw"], by simp [setParIsFree, thawFrozenChange, odfThaw], by decide⟩

theorem callsExt_plotterFit (fitO : OdfModel → OdfModel) (st : GuiState) :
    CallsExt st (plotterFit fitO st) :=
  ⟨["fit"], by simp [plotterFit], by decide⟩

theorem callsExt_pvc {st st2 : GuiState} (h : parameterValueChanged st = Except.ok st2) :
    CallsExt st st2 := by
  unfold parameterValueChanged at h
  cases hg : odfGetItem st st.selectedPar with
  | error e => rw [hg] at h; exact absurd h (by simp)
  | ok pr =>
    obtain ⟨v, st1⟩ := pr
    rw [hg] at h
    dsimp only at h
    cases h
    exact (callsExt_odfGetItem hg).trans ⟨["evaluate"], by simp [plotterPlot], by decide⟩

theorem mpUpdate_ok_calls {st : GuiState} {p : String} {f : ModProps → ModProps}
    {st2 : GuiState} (h : mpUpdate st p f = Except.ok st2) : st2.odfCalls = st.odfCalls := by
  unfold mpUpdate at h
  cases halk : alookup st.modProps p with
  | none => rw [halk] at h; exact absurd h (by simp)
  | some mp => rw [halk] at h; cases h; rfl

theorem callsExt_setModModus {st : GuiState} {v : String} {st2 : GuiState}
    (h : setModModus st v = Except.ok st2) : CallsExt st st2 := by
  unfold setModModus modModusChanged at h
  exact ⟨[], by simpa using mpUpdate_ok_calls h, by simp⟩

theorem callsExt_setEntryAdd {st : GuiState} {v : String} {st2 : GuiState}
    (h : setEntryAdd st v = Except.ok st2) : CallsExt st st2 := by
  unfold setEntryAdd modModeChanged at h
  exact ⟨[], by simpa using mpUpdate_ok_calls h, by simp⟩

theorem callsExt_setEntryMul {st : GuiState} {v : String} {st2 : GuiState}
    (h : setEntryMul st v = Except.ok st2) : CallsExt st st2 := by
  unfold setEntryMul modModeChanged at h
  exact ⟨[], by simpa using mpUpdate_ok_calls h, by simp⟩

theorem callsExt_invalidFloat {attrs : List String} {st st2 : GuiState}
    (h : invalidFloatBranch attrs st = Except.ok st2) : CallsExt st st2 := by
  unfold invalidFloatBranch at h
  by_cases hm : nameMem "modEntry" attrs = true
  · rw [if_pos hm] at h
    cases h
    exact ⟨[], by simp, by simp⟩
  · rw [if_neg hm] at h
    exact absurd h (by simp)

theorem callsExt_wheelUpdate {st : GuiState} {p : String} {val : ℚ} {mf? : Option ℚ}
    {ev : Nat} {st1 : GuiState} (h : wheelUpdate st p val mf? ev = Except.ok st1) :
    CallsExt st st1 := by
  unfold wheelUpdate at h
  by_cases h4 : ev = 4
  · rw [if_pos h4] at h
    cases mf? with
    | none => exact absurd h (by simp)
    | some mf =>
      dsimp only at h
      by_cases hmul : st.modModus = "mul"
      · rw [if_pos hmul] at h
        cases h
        exact callsExt_odfSetItem st p (val * mf)
      · rw [if_neg hmul] at h
        cases h
        exact callsExt_odfSetItem st p (val + mf)
  · rw [if_neg h4] at h
    by_cases h5 : ev = 5
    · rw [if_pos h5] at h
      cases mf? with
      | none => exact absurd h (by simp)
      | some mf =>
        dsimp only at h
        by_cases hmul : st.modModus = "mul"
        · rw [if_pos hmul] at h
          by_cases hz : mf = 0
          · rw [if_pos hz] at h
            exact absurd h (by simp)
          · rw [if_neg hz] at h
            cases h
            exact callsExt_odfSetItem st p (val / mf)
        · rw [if_neg hmul] at h
          cases h
          exact callsExt_odfSetItem st p (val - mf)
    · rw [if_neg h5] at h
      cases h
      exact CallsExt.rfl st

theorem callsExt_wheelApply {st : GuiState} {p : String} {val : ℚ} {mf? : Option ℚ}
    {ev : Nat} {st2 : GuiState} (h : wheelApply st p val mf? ev = Except.ok st2) :
    CallsExt st st2 := by
  unfold wheelApply at h
  cases hu : wheelUpdate st p val mf? ev with
  | error e => rw [hu] at h; exact absurd h (by simp)
  | ok st1 =>
    rw [hu] at h
    dsimp only at h
    exact (callsExt_wheelUpdate hu).trans (callsExt_pvc h)

theorem callsExt_mouseWheel {pyfloat : String → Option ℚ} {st : GuiState} {ev : Nat}
    {st2 : GuiState} (h : mouseWheel pyfloat st ev = Except.ok st2) : CallsExt st st2 := by
  unfold mouseWheel at h
  cases hg : odfGetItem st st.selectedPar with
  | error e => rw [hg] at h; exact absurd h (by simp)
  | ok pr =>
    obtain ⟨val, st1⟩ := pr
    rw [hg] at h
    dsimp only at h
    have hx : CallsExt st st1 := callsExt_odfGetItem hg
    by_cases ha : st1.modModus = "add"
    · rw [if_pos ha] at h
      cases hf : pyfloat st1.entryAdd with
      | some m => rw [hf] at h; dsimp only at h; exact hx.trans (callsExt_wheelApply h)
      | none => rw [hf] at h; dsimp only at h; exact hx.trans (callsExt_invalidFloat h)
    · rw [if_neg ha] at h
      by_cases hm : st1.modModus = "mul"
      · rw [if_pos hm] at h
        cases hf : pyfloat st1.entryMul with
        | some m => rw [hf] at h; dsimp only at h; exact hx.trans (callsExt_wheelApply h)
        | none => rw [hf] at h; dsimp only at h; exact hx.trans (callsExt_invalidFloat h)
      · rw [if_neg hm] at h
        exact hx.trans (callsExt_wheelApply h)

theorem callsExt_setParIsFree_ite (st : GuiState) :
    CallsExt st (if st.parIsFree then setParIsFree st true else setParIsFree st false) := by
  by_cases hb : st.parIsFree = true
  · rw [if_pos hb]; exact callsExt_setParIsFree st true
  · rw [if_neg hb]; exact callsExt_setParIsFree st false

theorem callsExt_apcFinish (p : String) (st : GuiState) :
    CallsExt st (apcFinish p st) := by
  unfold apcFinish odfFreeNames
  dsimp only
  refine CallsExt.trans (b := { st with odfCalls := st.odfCalls ++ ["freeParamNames"] })
    ⟨["freeParamNames"], by simp, by decide⟩ ?_
  exact (callsExt_setParIsFree _ _).trans (callsExt_setParIsFree_ite _)

theorem callsExt_apcStage2 {p : String} {st st2 : GuiState}
    (h : apcStage2 p st = Except.ok st2) : CallsExt st st2 := by
  unfold apcStage2 at h
  cases h1 : mpGet st p with
  | error e => rw [h1] at h; dsimp only at h; exact absurd h (by simp)
  | ok mp1 =>
    rw [h1] at h
    dsimp only at h
    cases h2 : setModModus st mp1.modus with
    | error e => rw [h2] at h; dsimp only at h; exact absurd h (by simp)
    | ok st3 =>
      rw [h2] at h
      dsimp only at h
      cases h3 : (if st3.modModus = "mul" then setModModus st3 "mul" else setModModus st3 "add") with
      | error e => rw [h3] at h; dsimp only at h; exact absurd h (by simp)
      | ok st4 =>
        rw [h3] at h
        dsimp only at h
        cases h4 : mpGet st4 p with
        | error e => rw [h4] at h; dsimp only at h; exact absurd h (by simp)
        | ok mp2 =>
          rw [h4] at h
          dsimp only at h
          cases h5 : setEntryAdd st4 (tkStr mp2.modValAdd) with
          | error e => rw [h5] at h; dsimp only at h; exact absurd h (by simp)
          | ok st5 =>
            rw [h5] at h
            dsimp only at h
            cases h6 : mpGet st5 p with
            | error e => rw [h6] at h; dsimp only at h; exact absurd h (by simp)
            | ok mp3 =>
              rw [h6] at h
              dsimp only at h
              cases h7 : setEntryMul st5 (tkStr mp3.modValMul) with
              | error e => rw [h7] at h; dsimp only at h; exact absurd h (by simp)
              | ok st6 =>
                rw [h7] at h
                dsimp only at h
                cases h
                have e3 : CallsExt st st3 := callsExt_setModModus h2
                have e4 : CallsExt st3 st4 := by
                  by_cases hc : st3.modModus = "mul"
                  · rw [if_pos hc] at h3; exact callsExt_setModModus h3
                  · rw [if_neg hc] at h3; exact callsExt_setModModus h3
                have e5 : CallsExt st4 st5 := callsExt_setEntryAdd h5
                have e6 : CallsExt st5 st6 := callsExt_setEntryMul h7
                exact (((e3.trans e4).trans e5).trans e6).trans (callsExt_apcFinish p st6)

theorem callsExt_activeParameterChanged {st st2 : GuiState}
    (h : activeParameterChanged st = Except.ok st2) : CallsExt st st2 := by
  unfold activeParameterChanged at h
  cases hg : odfGetItem st st.selectedPar with
  | error e => rw [hg] at h; dsimp only at h; exact absurd h (by simp)
  | ok pr =>
    obtain ⟨v, st1⟩ := pr
    rw [hg] at h
    dsimp only at h
    have hx : CallsExt st st1 := callsExt_odfGetItem hg
    have hy : CallsExt st1 { st1 with valLabel := some v } := ⟨[], by simp, by simp⟩
    exact (hx.trans hy).trans (callsExt_apcStage2 h)

theorem callsExt_setToClicked {pyfloat : String → Option ℚ} {acts : List DialogAction}
    {st st2 : GuiState} (h : setToClicked pyfloat acts st = Except.ok st2) :
    CallsExt st st2 := by
  unfold setToClicked at h
  cases hg : odfGetItem st st.selectedPar with
  | error e => rw [hg] at h; exact absurd h (by simp)
  | ok pr =>
    obtain ⟨ov, st1⟩ := pr
    rw [hg] at h
    dsimp only at h
    cases hr : runDialog pyfloat (initSetToDialog ov) acts with
    | error e => rw [hr] at h; exact absurd h (by simp)
    | ok d =>
      rw [hr] at h
      dsimp only at h
      cases hnv : d.newVal with
      | some v =>
        rw [hnv] at h
        dsimp only at h
        exact (callsExt_odfGetItem hg).trans
          ((callsExt_odfSetItem st1 st1.selectedPar v).trans (callsExt_pvc h))
      | none =>
        rw [hnv] at h
        dsimp only at h
        cases h
        exact callsExt_odfGetItem hg

theorem callsExt_fitClicked {fitO : OdfModel → OdfModel} {st st2 : GuiState}
    (h : fitClicked fitO st = Except.ok st2) : CallsExt st st2 := by
  unfold fitClicked at h
  exact (callsExt_plotterFit fitO st).trans (callsExt_pvc h)

theorem callsExt_parameterSummaryClicked (parSum : OdfModel → List String) (st : GuiState) :
    CallsExt st (parameterSummaryClicked parSum st) := by
  unfold parameterSummaryClicked odfParamSummary
  cases hw : st.parSumWin with
  | none => exact ⟨["parameterSummary"], by simp [hw], by decide⟩
  | some w => exact ⟨["parameterSummary"], by simp [hw], by decide⟩

theorem callsExt_windowClosed (st : GuiState) : CallsExt st (windowClosed st) :=
  ⟨[], by simp [windowClosed], by simp⟩

theorem initGui_contractOnly {m : OdfModel} {pl : PlotFitState} {st2 : GuiState}
    (h : initGui m pl = Except.ok st2) : ContractOnly st2 := by
  unfold initGui at h
  cases hps : m.parameterNames with
  | nil => rw [hps] at h; exact absurd h (by simp)
  | cons p0 rest =>
    rw [hps] at h
    dsimp only at h
    cases halk : alookup ((p0 :: rest).map (fun p =>
        (p, ({ modus := "mul", modValMul := .num (mkRat 51 50), modValAdd := .num (mkRat 1 100) } : ModProps)))) p0 with
    | none => rw [halk] at h; exact absurd h (by simp)
    | some mp0 =>
      rw [halk] at h
      dsimp only at h
      refine contractOnly_of_callsExt (callsExt_pvc h) ?_
      intro c hc
      simp only [List.mem_cons] at hc
      rcases hc with h1 | h1 | h1
      · subst h1; decide
      · subst h1; decide
      · exact absurd h1 (by simp)

/-- Claim C6: every operation a GUI handler performs on the model object
is one of the contract operations `evaluate`, `fit`, `parameters`,
`freeParamNames`, `thaw`, `freeze`, `parameterSummary` and indexed
get/set ("getitem"/"setitem"): construction establishes a
contract-only call trace and every handler preserves it, and
`FFModelPlotFit.fit` is pure delegation — its only model interaction is
the single `fit` call. -/
theorem c6_model_contract_only :
    (∀ (m : OdfModel) (pl : PlotFitState) (st2 : GuiState),
      initGui m pl = Except.ok st2 → ContractOnly st2)
    ∧ (∀ (pyfloat : String → Option ℚ) (st : GuiState) (ev : Nat) (st2 : GuiState),
      mouseWheel pyfloat st ev = Except.ok st2 → ContractOnly st → ContractOnly st2)
    ∧ (∀ (pyfloat : String → Option ℚ) (acts : List DialogAction) (st st2 : GuiState),
      setToClicked pyfloat acts st = Except.ok st2 → ContractOnly st → ContractOnly st2)
    ∧ (∀ st v st2, setSelectedPar st v = Except.ok st2 → ContractOnly st → ContractOnly st2)
    ∧ (∀ st v st2, setModModus st v = Except.ok st2 → ContractOnly st → ContractOnly st2)
    ∧ (∀ st v st2, setEntryAdd st v = Except.ok st2 → ContractOnly st → ContractOnly st2)
    ∧ (∀ st v st2, setEntryMul st v = Except.ok st2 → ContractOnly st → ContractOnly st2)
    ∧ (∀ (st : GuiState) (b : Bool), ContractOnly st → ContractOnly (setParIsFree st b))
    ∧ (∀ (fitO : OdfModel → OdfModel) (st st2 : GuiState),
      fitClicked fitO st = Except.ok st2 → ContractOnly st → ContractOnly st2)
    ∧ (∀ (parSum : OdfModel → List String) (st : GuiState),
      ContractOnly st → ContractOnly (parameterSummaryClicked parSum st))
    ∧ (∀ st : GuiState, ContractOnly st → ContractOnly (windowClosed st))
    ∧ (∀ st st2 : GuiState,
      parameterValueChanged st = Except.ok st2 → ContractOnly st → ContractOnly st2)
    ∧ (∀ (fitO : OdfModel → OdfModel) (st : GuiState),
      (plotterFit fitO st).odfCalls = st.odfCalls ++ ["fit"]
      ∧ (plotterFit fitO st).odf = fitO st.odf) := by
  refine ⟨?_, ?_, ?_, ?_, ?_, ?_, ?_, ?_, ?_, ?_, ?_, ?_, ?_⟩
  · intro m pl st2 h
    exact initGui_contractOnly h
  · intro pyfloat st ev st2 h hc
    exact contractOnly_of_callsExt (callsExt_mouseWheel h) hc
  · intro pyfloat acts st st2 h hc
    exact contractOnly_of_callsExt (callsExt_setToClicked h) hc
  · intro st v st2 h hc
    exact contractOnly_of_callsExt (callsExt_activeParameterChanged h) hc
  · intro st v st2 h hc
    exact contractOnly_of_callsExt (callsExt_setModModus h) hc
  · intro st v st2 h hc
    exact contractOnly_of_callsExt (callsExt_setEntryAdd h) hc
  · intro st v st2 h hc
    exact contractOnly_of_callsExt (callsExt_setEntryMul h) hc
  · intro st b hc
    exact contractOnly_of_callsExt (callsExt_setParIsFree st b) hc
  · intro fitO st st2 h hc
    exact contractOnly_of_callsExt (callsExt_fitClicked h) hc
  · intro parSum st hc
    exact contractOnly_of_callsExt (callsExt_parameterSummaryClicked parSum st) hc
  · intro st hc
    exact contractOnly_of_callsExt (callsExt_windowClosed st) hc
  · intro st st2 h hc
    exact contractOnly_of_callsExt (callsExt_pvc h) hc
  · intro fitO st
    exact ⟨rfl, rfl⟩

/-- Witness for C6: the construction on a concrete model yields a
contract-only trace, thawing preserves it, and `FFModelPlotFit.fit`
delegates exactly one `fit` call on a concrete state. -/
theorem c6_model_contract_only_witness :
    ContractOnly c4SwitchRes
    ∧ ContractOnly (setParIsFree (mkGui odfA "A" "mul" "1.02" "0.01") true)
    ∧ (plotterFit (fun m => m) (mkGui odfA "A" "mul" "1.02" "0.01")).odfCalls
        = (mkGui odfA "A" "mul" "1.02" "0.01").odfCalls ++ ["fit"] := by
  refine ⟨?_, ?_, ?_⟩
  · exact c6_model_contract_only.2.2.2.1 (mkGui odfAB "B" "mul" "1.5" "0.2") "B" c4SwitchRes
      rfl (by intro c hc; simp [mkGui] at hc)
  · exact c6_model_contract_only.2.2.2.2.2.2.2.1 (mkGui odfA "A" "mul" "1.02" "0.01") true
      (by intro c hc; simp [mkGui] at hc)
  · exact (c6_model_contract_only.2.2.2.2.2.2.2.2.2.2.2.2 (fun m => m)
      (mkGui odfA "A" "mul" "1.02" "0.01")).1
